import Mathlib

/-!
# Appetizer: verification of the recommendation-ranking engine and inspiration generator

Shallow embedding of `src/appetizer.py`. The pandas dataframe of recipes is
embedded as a `List Recipe`, rows addressed by position (the dataframe uses the
default `RangeIndex`, so labels coincide with positions). The per-dimension
dummy indicator columns produced by `get_dummies` are embedded as the label
list each recipe carries in that dimension: a dummy column `Col_label` holds 1
in row `i` exactly when `label` is among row `i`'s tags for `Col`.

Fallible operations (Python code that raises) return `Option`:
`get_recipe_indices` performs `int(df[df['Recipe'] == recipe].index.values)`,
which raises unless the name matches exactly one row, hence `Option`.

`pandas.DataFrame.sample(frac=1, random_state=seed)` is a deterministic
pseudo-random permutation of the rows determined by the seed. It is embedded
as `sampleShuffle`, a concrete seeded permutation (a stable sort of the row
indices by a multiplicative-hash key of the seed and the index); the exact
permutation differs from numpy's, and every theorem below depends only on it
being a permutation that is a pure function of `(seed, input)`.
-/

namespace Appetizer

/-- The five fixed tag dimensions of the catalog
(`["Meal", "Protein", "Cuisine", "Form", "Starch"]` in `run_app`). -/
inductive Dim where
  | Meal
  | Protein
  | Cuisine
  | Form
  | Starch
deriving DecidableEq, Repr

/-- A row of the recipes dataframe: name, optional notes, serving bounds, and
the label set of each tag dimension (from the comma-separated catalog input,
one dummy column per label). -/
structure Recipe where
  name : String
  notes : Option String
  minServings : Int
  maxServings : Int
  mealTags : List String
  proteinTags : List String
  cuisineTags : List String
  formTags : List String
  starchTags : List String
deriving DecidableEq, Repr

instance : Inhabited Recipe :=
  ⟨⟨"", none, 0, 0, [], [], [], [], []⟩⟩

/-- The labels a recipe carries in a dimension (its 1-entries among the
`{dim}_`-prefixed dummy columns). -/
def Recipe.tags (r : Recipe) : Dim → List String
  | .Meal => r.mealTags
  | .Protein => r.proteinTags
  | .Cuisine => r.cuisineTags
  | .Form => r.formTags
  | .Starch => r.starchTags

/-- Row `i` of the dataframe (`df.loc[i]` / `df.iloc[i]`; positions and labels
coincide under the default index). -/
def rowAt (df : List Recipe) (i : Nat) : Recipe :=
  df.getD i default

/-- `int(df[df['Recipe'] == recipe].index.values)`: the unique row index whose
`Recipe` column equals `recipe`; `int(...)` raises unless exactly one row
matches, hence `none` in that case. -/
def recipeIndex (df : List Recipe) (recipe : String) : Option Nat :=
  match (List.range df.length).filter (fun i => (rowAt df i).name == recipe) with
  | [i] => some i
  | _ => none

/-- `get_recipe_indices(df, recipes)`: the list of row indices matching the
given recipe names, in order; `none` if any name fails to match exactly one
row (the Python loop raises there). -/
def get_recipe_indices (df : List Recipe) : List String → Option (List Nat)
  | [] => some []
  | recipe :: rest =>
    match recipeIndex df recipe, get_recipe_indices df rest with
    | some i, some is => some (i :: is)
    | _, _ => none

/-- `filter_col(df, col, prev_inds)` at row `i`: row `i` has no label in
dimension `col` that any previous row also has. The Python builds the used-label
mask `df.loc[prev_inds, col_filter].sum(0).astype(bool)` over the dummy columns
and requires `((row * mask) ^ 1).all()`, i.e. the row's 1-entries avoid every
used label; labels the row does not carry contribute 1 after `^ 1` regardless,
so only the row's own tags matter. -/
def filter_col (df : List Recipe) (col : Dim) (prev_inds : List Nat) (i : Nat) : Bool :=
  ((rowAt df i).tags col).all fun label =>
    prev_inds.all fun j => !(((rowAt df j).tags col).contains label)

/-- `select_meals(df, meals)` at row `i`: the union (`mask |= df[f"Meal_{meal}"]`)
of the requested meals' dummy columns. A requested label that is a column of
the dataframe holds 1 at `i` iff the row carries it; the embedding tests tag
membership directly. -/
def select_meals (df : List Recipe) (meals : List String) (i : Nat) : Bool :=
  meals.any fun meal => ((rowAt df i).tags .Meal).contains meal

/-- `select_servings(df, servings)` at row `i`: trivially true when `servings`
is `None`, else `Min Servings <= servings <= Max Servings`. -/
def select_servings (df : List Recipe) (servings : Option Int) (i : Nat) : Bool :=
  match servings with
  | none => true
  | some s => decide ((rowAt df i).minServings ≤ s) && decide (s ≤ (rowAt df i).maxServings)

/-- `recommendation_categories = ['Protein', 'Cuisine', 'Form', 'Starch']`. -/
def recommendation_categories : List Dim :=
  [.Protein, .Cuisine, .Form, .Starch]

/-- Multiplicative-hash key used by `sampleShuffle` for row `i` under `seed`. -/
def lcgKey (seed i : Nat) : Nat :=
  (seed * 2654435761 + i * 2246822519 + 3266489917) % 4294967296

/-- Embedding of `selected_recipes.sample(frac=1, random_state=seed)`: a
deterministic pseudo-random permutation of the rows, a pure function of the
seed and the input (see the module docstring). -/
def sampleShuffle (seed : Nat) (l : List Nat) : List Nat :=
  List.insertionSort (fun a b => lcgKey seed a ≤ lcgKey seed b) l

/-- One row of the dataframe returned by `get_recipe_recommendations`: the
original row index (the dataframe keeps it), the `Recipe` column and the
`Rating` column. -/
structure Recommendation where
  index : Nat
  name : String
  rating : Nat
deriving DecidableEq, Repr

instance : Inhabited Recommendation :=
  ⟨⟨0, "", 0⟩⟩

/-- The per-rating dissimilarity test: dissimilar (`filter_col`) in every one
of the first `rating` categories (`for col in recommendation_categories[:rating]`). -/
def rating_ok (df : List Recipe) (prev_inds : List Nat) (rating : Nat) (i : Nat) : Bool :=
  (recommendation_categories.take rating).all fun col => filter_col df col prev_inds i

/-- The eligibility mask built before the rating loop:
`mask &= ~df.index.isin(prev_inds)`, `mask &= select_meals(df, meals)`,
`mask &= select_servings(df, servings)`, as the list of rows it keeps. -/
def eligibleList (df : List Recipe) (prev_inds : List Nat) (meals : List String)
    (servings : Option Int) : List Nat :=
  (List.range df.length).filter fun i =>
    !(prev_inds.contains i) && select_meals df meals i && select_servings df servings i

/-- The `for rating in range(len(recommendation_categories), 0, -1)` loop:
at each rating, select the still-remaining rows passing `rating_ok`, shuffle
them with the seed, emit them with that rating, and drop them from the
remaining mask (`mask &= ~rating_mask`). -/
def rankTiers (df : List Recipe) (prev_inds : List Nat) (seed : Nat) :
    List Nat → List Nat → List Recommendation
  | [], _ => []
  | rating :: rest, remaining =>
    (sampleShuffle seed (remaining.filter (rating_ok df prev_inds rating))).map
        (fun i => ⟨i, (rowAt df i).name, rating⟩) ++
      rankTiers df prev_inds seed rest
        (remaining.filter fun i => !(rating_ok df prev_inds rating i))

/-- `get_recipe_recommendations(df, prev_recipes, meals, servings, seed)`:
resolve the previous recipes to row indices, build the eligibility mask, then
run the rating loop for ratings 4, 3, 2, 1 and concatenate the tiers. -/
def get_recipe_recommendations (df : List Recipe) (prev_recipes : List String)
    (meals : List String) (servings : Option Int) (seed : Nat) :
    Option (List Recommendation) :=
  match get_recipe_indices df prev_recipes with
  | none => none
  | some prev_inds =>
    some (rankTiers df prev_inds seed [4, 3, 2, 1]
      (eligibleList df prev_inds meals servings))

/-- The markdown f-string of `select_recommendation`, verbatim. -/
def formatMarkdown (recommendation stars notes : String) : String :=
  "\n    ## " ++ recommendation ++ " | " ++ stars ++ "\n    " ++ notes ++ "\n    "

/-- `select_recommendation(df, recommendations, i)`. Returns the sentinel when
the list is empty or `i >= len(recommendations)`. Otherwise `.iloc[i]` resolves
Python-style: a negative `i` counts from the end (`len + i`); `i < -len` raises
`IndexError`, embedded as `none`. `notes` is row `index[i]`'s `Notes`, with
`None` rendered as the empty string. -/
def select_recommendation (df : List Recipe) (recommendations : List Recommendation)
    (i : Int) : Option String :=
  if recommendations.length = 0 ∨ (recommendations.length : Int) ≤ i then
    some "No more recipes to recommend!"
  else
    let j : Int := if i < 0 then (recommendations.length : Int) + i else i
    if 0 ≤ j then
      let x := recommendations.getD j.toNat default
      some (formatMarkdown x.name (String.mk (List.replicate x.rating '*'))
        (((rowAt df x.index).notes).getD ""))
    else
      none

/-- `merge_strings(*strings)`: the empty string when any argument is `None`,
else the concatenation. Python string arguments are embedded as `some`. -/
def merge_strings (strings : List (Option String)) : String :=
  if strings.contains none then "" else String.join (strings.map fun s => s.getD "")

/-- The `try: remove('none'); remove('other') except ValueError: pass` block of
`get_new_category`. `list.remove` drops the first occurrence and raises
`ValueError` when absent, aborting the rest of the `try` block: so when
`"none"` is absent nothing at all is removed (the attempt to remove `"other"`
is never reached); when `"none"` is present, `"other"` is also removed if
present (a `ValueError` from its own removal is caught with the list already
updated). -/
def removeReservedLabels (l : List String) : List String :=
  if l.contains "none" then (l.erase "none").erase "other" else l

/-- The candidate list `inspo_categories` of `get_new_category(col)`: the
labels of `categories[col]` used by no previous recipe
(`compress(categories[col], ~mask)`), with the reserved labels removed per
`removeReservedLabels`. -/
def get_new_category_pool (df : List Recipe) (categories : Dim → List String)
    (prev_inds : List Nat) (col : Dim) : List String :=
  removeReservedLabels ((categories col).filter fun label =>
    prev_inds.all fun j => !(((rowAt df j).tags col).contains label))

/-- `random.choice(lst)` with the random draw abstracted as a number `pick`:
an element of the list when non-empty (`lst[pick % len(lst)]`), `none` on an
empty list (`IndexError`, which `get_new_category` converts to `None`). -/
def choice (pick : Nat) (l : List String) : Option String :=
  l.get? (pick % l.length)

/-- `get_new_category(col)`: a random unused non-reserved label of the
dimension, or `None` when none is available. -/
def get_new_category (df : List Recipe) (categories : Dim → List String)
    (prev_inds : List Nat) (col : Dim) (pick : Nat) : Option String :=
  choice pick (get_new_category_pool df categories prev_inds col)

/-- The random draws consumed by one call of `get_recipe_inspiration`: the
three `random.random() < p` branch tests, and one abstract `random.choice`
draw per dimension (each dimension's `get_new_category` is called at most
once). -/
structure Rng where
  coinCuisine : Bool
  coinForm : Bool
  coinStarch : Bool
  pickCuisine : Nat
  pickForm : Nat
  pickProtein : Nat
  pickStarch : Nat
deriving DecidableEq, Repr

/-- The `Cuisine` contribution: with probability 0.5,
`merge_strings(get_new_category("Cuisine"), " ")`, else nothing. -/
def cuisineClause (df : List Recipe) (categories : Dim → List String)
    (prev_inds : List Nat) (rng : Rng) : String :=
  if rng.coinCuisine then
    merge_strings [get_new_category df categories prev_inds .Cuisine rng.pickCuisine, some " "]
  else ""

/-- The `Form` contribution: with probability 0.7,
`merge_strings(get_new_category("Form"), " ")`, else nothing. -/
def formClause (df : List Recipe) (categories : Dim → List String)
    (prev_inds : List Nat) (rng : Rng) : String :=
  if rng.coinForm then
    merge_strings [get_new_category df categories prev_inds .Form rng.pickForm, some " "]
  else ""

/-- The unconditional `Protein` contribution appended to the text built so far
(`base`): `merge_strings(prefix, get_new_category("Protein"), "")` where
`prefix` is `"with "` when `base` is non-empty (Python string truthiness). -/
def proteinClause (df : List Recipe) (categories : Dim → List String)
    (prev_inds : List Nat) (rng : Rng) (base : String) : String :=
  merge_strings [some (if base = "" then "" else "with "),
    get_new_category df categories prev_inds .Protein rng.pickProtein, some ""]

/-- The `Starch` contribution appended to the text built so far (`base`): with
probability 0.5, `merge_strings(prefix, get_new_category("Starch"))` where
`prefix` is `" and "` when `base` is non-empty, else nothing. -/
def starchClause (df : List Recipe) (categories : Dim → List String)
    (prev_inds : List Nat) (rng : Rng) (base : String) : String :=
  if rng.coinStarch then
    merge_strings [some (if base = "" then "" else " and "),
      get_new_category df categories prev_inds .Starch rng.pickStarch]
  else ""

/-- `get_recipe_inspiration(df, categories, prev_recipes)` with the random
draws made explicit: resolve the previous recipes (`none` when a name fails to
resolve, as in the ranking engine), then accumulate the four clauses in
order. -/
def get_recipe_inspiration (df : List Recipe) (categories : Dim → List String)
    (prev_recipes : List String) (rng : Rng) : Option String :=
  match get_recipe_indices df prev_recipes with
  | none => none
  | some prev_inds =>
    let base2 := cuisineClause df categories prev_inds rng ++
      formClause df categories prev_inds rng
    let base3 := base2 ++ proteinClause df categories prev_inds rng base2
    some (base3 ++ starchClause df categories prev_inds rng base3)

/-!
## Spec-side definition

The spec's **Rating** glossary entry: "count of leading priority dimensions
(Protein, Cuisine, Form, Starch, in that order) in which a recipe is
simultaneously dissimilar from the previous selection".
-/

/-- The number of leading categories of `recommendation_categories` in all of
which row `i` is dissimilar from the previous rows — the length of the longest
all-dissimilar prefix of the priority order. -/
def leadingDissimilarCount (df : List Recipe) (prev_inds : List Nat) (i : Nat) : Nat :=
  (recommendation_categories.takeWhile fun col => filter_col df col prev_inds i).length

/-!
## Helper lemmas
-/

theorem mem_sampleShuffle {seed : Nat} {l : List Nat} {a : Nat} :
    a ∈ sampleShuffle seed l ↔ a ∈ l :=
  List.mem_insertionSort _

theorem nodup_sampleShuffle {seed : Nat} {l : List Nat} (h : l.Nodup) :
    (sampleShuffle seed l).Nodup :=
  (List.perm_insertionSort _ l).nodup_iff.mpr h

theorem rating_ok_one (df : List Recipe) (pv : List Nat) (i : Nat) :
    rating_ok df pv 1 i = filter_col df .Protein pv i := by
  simp [rating_ok, recommendation_categories]

theorem rating_ok_two (df : List Recipe) (pv : List Nat) (i : Nat) :
    rating_ok df pv 2 i =
      (filter_col df .Protein pv i && filter_col df .Cuisine pv i) := by
  simp [rating_ok, recommendation_categories]

theorem rating_ok_three (df : List Recipe) (pv : List Nat) (i : Nat) :
    rating_ok df pv 3 i =
      (filter_col df .Protein pv i && filter_col df .Cuisine pv i &&
        filter_col df .Form pv i) := by
  simp [rating_ok, recommendation_categories, Bool.and_assoc]

theorem rating_ok_four (df : List Recipe) (pv : List Nat) (i : Nat) :
    rating_ok df pv 4 i =
      (filter_col df .Protein pv i && filter_col df .Cuisine pv i &&
        filter_col df .Form pv i && filter_col df .Starch pv i) := by
  simp [rating_ok, recommendation_categories, Bool.and_assoc]

theorem leadingDissimilarCount_eq (df : List Recipe) (pv : List Nat) (i : Nat) :
    leadingDissimilarCount df pv i =
      if filter_col df .Protein pv i then
        if filter_col df .Cuisine pv i then
          if filter_col df .Form pv i then
            if filter_col df .Starch pv i then 4 else 3
          else 2
        else 1
      else 0 := by
  cases hP : filter_col df .Protein pv i <;>
    cases hC : filter_col df .Cuisine pv i <;>
      cases hF : filter_col df .Form pv i <;>
        cases hS : filter_col df .Starch pv i <;>
          simp [leadingDissimilarCount, recommendation_categories, List.takeWhile, hP, hC, hF, hS]

theorem mem_rankTiers_iff (df : List Recipe) (pv : List Nat) (seed : Nat) (E : List Nat)
    (x : Recommendation) :
    x ∈ rankTiers df pv seed [4, 3, 2, 1] E ↔
      x.index ∈ E ∧ filter_col df .Protein pv x.index = true ∧
        x = ⟨x.index, (rowAt df x.index).name, leadingDissimilarCount df pv x.index⟩ := by
  simp only [rankTiers, List.append_nil, List.mem_append, List.mem_map, mem_sampleShuffle,
    List.mem_filter, rating_ok_one, rating_ok_two, rating_ok_three, rating_ok_four]
  constructor
  · rintro (⟨i, ⟨hiE, hsel⟩, rfl⟩ | ⟨i, ⟨⟨hiE, h4⟩, hsel⟩, rfl⟩ |
      ⟨i, ⟨⟨⟨hiE, h4⟩, h3⟩, hsel⟩, rfl⟩ | ⟨i, ⟨⟨⟨⟨hiE, h4⟩, h3⟩, h2⟩, hsel⟩, rfl⟩)
    · simp only [Bool.and_eq_true] at hsel
      obtain ⟨⟨⟨hP, hC⟩, hF⟩, hS⟩ := hsel
      refine ⟨hiE, hP, ?_⟩
      simp [leadingDissimilarCount_eq, hP, hC, hF, hS]
    · simp only [Bool.and_eq_true] at hsel
      obtain ⟨⟨hP, hC⟩, hF⟩ := hsel
      simp only [Bool.not_eq_true', Bool.and_eq_false_iff, hP, hC, hF] at h4
      refine ⟨hiE, hP, ?_⟩
      simp_all [leadingDissimilarCount_eq, hP, hC, hF]
    · simp only [Bool.and_eq_true] at hsel
      obtain ⟨hP, hC⟩ := hsel
      simp only [Bool.not_eq_true', Bool.and_eq_false_iff, hP, hC] at h4 h3
      refine ⟨hiE, hP, ?_⟩
      simp_all [leadingDissimilarCount_eq, hP, hC]
    · have hP : filter_col df .Protein pv i = true := hsel
      simp only [Bool.not_eq_true', Bool.and_eq_false_iff, hP] at h4 h3 h2
      refine ⟨hiE, hP, ?_⟩
      simp_all [leadingDissimilarCount_eq, hP]
  · rintro ⟨hiE, hP, hx⟩
    rw [leadingDissimilarCount_eq, hP] at hx
    cases hC : filter_col df .Cuisine pv x.index <;>
      cases hF : filter_col df .Form pv x.index <;>
        cases hS : filter_col df .Starch pv x.index
    · exact Or.inr (Or.inr (Or.inr ⟨x.index,
        ⟨⟨⟨⟨hiE, by simp [hC]⟩, by simp [hC]⟩, by simp [hC]⟩, by simp [hP]⟩,
        by rw [hC] at hx; simp at hx; rw [hx]⟩))
    · exact Or.inr (Or.inr (Or.inr ⟨x.index,
        ⟨⟨⟨⟨hiE, by simp [hC]⟩, by simp [hC]⟩, by simp [hC]⟩, by simp [hP]⟩,
        by rw [hC] at hx; simp at hx; rw [hx]⟩))
    · exact Or.inr (Or.inr (Or.inr ⟨x.index,
        ⟨⟨⟨⟨hiE, by simp [hC]⟩, by simp [hC]⟩, by simp [hC]⟩, by simp [hP]⟩,
        by rw [hC] at hx; simp at hx; rw [hx]⟩))
    · exact Or.inr (Or.inr (Or.inr ⟨x.index,
        ⟨⟨⟨⟨hiE, by simp [hC]⟩, by simp [hC]⟩, by simp [hC]⟩, by simp [hP]⟩,
        by rw [hC] at hx; simp at hx; rw [hx]⟩))
    · exact Or.inr (Or.inr (Or.inl ⟨x.index,
        ⟨⟨⟨hiE, by simp [hF]⟩, by simp [hF]⟩, by simp [hP, hC]⟩,
        by rw [hC, hF] at hx; simp at hx; rw [hx]⟩))
    · exact Or.inr (Or.inr (Or.inl ⟨x.index,
        ⟨⟨⟨hiE, by simp [hF]⟩, by simp [hF]⟩, by simp [hP, hC]⟩,
        by rw [hC, hF] at hx; simp at hx; rw [hx]⟩))
    · exact Or.inr (Or.inl ⟨x.index,
        ⟨⟨hiE, by simp [hS]⟩, by simp [hP, hC, hF]⟩,
        by rw [hC, hF, hS] at hx; simp at hx; rw [hx]⟩)
    · exact Or.inl ⟨x.index, ⟨hiE, by simp [hP, hC, hF, hS]⟩,
        by rw [hC, hF, hS] at hx; simp at hx; rw [hx]⟩

theorem nodup_rankTiers (df : List Recipe) (pv : List Nat) (seed : Nat) (E : List Nat)
    (hE : E.Nodup) :
    ((rankTiers df pv seed [4, 3, 2, 1] E).map Recommendation.index).Nodup := by
  simp only [rankTiers, List.append_nil, List.map_append, List.map_map,
    Function.comp_def, List.map_id']
  have key : ∀ (p : Nat → Bool) (l : List Nat) (a : Nat),
      a ∈ sampleShuffle seed (l.filter p) → a ∈ l ∧ p a = true := by
    intro p l a ha
    exact List.mem_filter.mp (mem_sampleShuffle.mp ha)
  have m4 : ∀ a, a ∈ sampleShuffle seed (E.filter (rating_ok df pv 4)) →
      filter_col df .Protein pv a = true ∧ filter_col df .Cuisine pv a = true ∧
        filter_col df .Form pv a = true ∧ filter_col df .Starch pv a = true := by
    intro a ha
    have h := (key _ _ a ha).2
    rw [rating_ok_four] at h
    simp only [Bool.and_eq_true] at h
    exact ⟨h.1.1.1, h.1.1.2, h.1.2, h.2⟩
  have m3 : ∀ a, a ∈ sampleShuffle seed
      ((E.filter fun i => !rating_ok df pv 4 i).filter (rating_ok df pv 3)) →
      filter_col df .Protein pv a = true ∧ filter_col df .Cuisine pv a = true ∧
        filter_col df .Form pv a = true ∧ filter_col df .Starch pv a = false := by
    intro a ha
    obtain ⟨haR, hok⟩ := key _ _ a ha
    obtain ⟨-, h4⟩ := List.mem_filter.mp haR
    rw [rating_ok_three] at hok
    simp only [Bool.and_eq_true] at hok
    obtain ⟨⟨hP, hC⟩, hF⟩ := hok
    simp only [Bool.not_eq_true', rating_ok_four, hP, hC, hF, Bool.and_eq_false_iff] at h4
    rcases h4 with ((h | h) | h) | h <;> simp_all
  have m2 : ∀ a, a ∈ sampleShuffle seed
      (((E.filter fun i => !rating_ok df pv 4 i).filter
          fun i => !rating_ok df pv 3 i).filter (rating_ok df pv 2)) →
      filter_col df .Protein pv a = true ∧ filter_col df .Cuisine pv a = true ∧
        filter_col df .Form pv a = false := by
    intro a ha
    obtain ⟨haR, hok⟩ := key _ _ a ha
    obtain ⟨-, h3⟩ := List.mem_filter.mp haR
    rw [rating_ok_two] at hok
    simp only [Bool.and_eq_true] at hok
    obtain ⟨hP, hC⟩ := hok
    simp only [Bool.not_eq_true', rating_ok_three, hP, hC, Bool.and_eq_false_iff] at h3
    rcases h3 with (h | h) | h <;> simp_all
  have m1 : ∀ a, a ∈ sampleShuffle seed
      ((((E.filter fun i => !rating_ok df pv 4 i).filter
          fun i => !rating_ok df pv 3 i).filter
            fun i => !rating_ok df pv 2 i).filter (rating_ok df pv 1)) →
      filter_col df .Protein pv a = true ∧ filter_col df .Cuisine pv a = false := by
    intro a ha
    obtain ⟨haR, hok⟩ := key _ _ a ha
    obtain ⟨-, h2⟩ := List.mem_filter.mp haR
    rw [rating_ok_one] at hok
    simp only [Bool.not_eq_true', rating_ok_two, hok, Bool.and_eq_false_iff] at h2
    rcases h2 with h | h <;> simp_all
  rw [List.nodup_append, List.nodup_append, List.nodup_append]
  refine ⟨?_, ⟨?_, ⟨?_, ?_, ?_⟩, ?_⟩, ?_⟩
  · exact nodup_sampleShuffle (hE.filter _)
  · exact nodup_sampleShuffle ((hE.filter _).filter _)
  · exact nodup_sampleShuffle (((hE.filter _).filter _).filter _)
  · exact nodup_sampleShuffle ((((hE.filter _).filter _).filter _).filter _)
  · intro a ha hb
    obtain ⟨-, hC, -⟩ := m2 a ha
    obtain ⟨-, hC'⟩ := m1 a hb
    rw [hC] at hC'
    exact Bool.noConfusion hC'
  · rw [List.disjoint_append_right]
    constructor <;> intro a ha hb
    · obtain ⟨-, -, hF, -⟩ := m3 a ha
      obtain ⟨-, -, hF'⟩ := m2 a hb
      rw [hF] at hF'
      exact Bool.noConfusion hF'
    · obtain ⟨-, hC, -, -⟩ := m3 a ha
      obtain ⟨-, hC'⟩ := m1 a hb
      rw [hC] at hC'
      exact Bool.noConfusion hC'
  · rw [List.disjoint_append_right, List.disjoint_append_right]
    refine ⟨?_, ?_, ?_⟩ <;> intro a ha hb
    · obtain ⟨-, -, -, hS⟩ := m4 a ha
      obtain ⟨-, -, -, hS'⟩ := m3 a hb
      rw [hS] at hS'
      exact Bool.noConfusion hS'
    · obtain ⟨-, -, hF, -⟩ := m4 a ha
      obtain ⟨-, -, hF'⟩ := m2 a hb
      rw [hF] at hF'
      exact Bool.noConfusion hF'
    · obtain ⟨-, hC, -, -⟩ := m4 a ha
      obtain ⟨-, hC'⟩ := m1 a hb
      rw [hC] at hC'
      exact Bool.noConfusion hC'

theorem recipeIndex_eq_some {df : List Recipe} {nm : String} {j : Nat}
    (h : recipeIndex df nm = some j) :
    (List.range df.length).filter (fun i => (rowAt df i).name == nm) = [j] := by
  unfold recipeIndex at h
  split at h
  · next i heq =>
    cases h
    exact heq
  · cases h

theorem recipeIndex_unique {df : List Recipe} {nm : String} {j k : Nat}
    (h : recipeIndex df nm = some j) (hk : k < df.length)
    (hnm : (rowAt df k).name = nm) : k = j := by
  have hfil := recipeIndex_eq_some h
  have hkmem : k ∈ (List.range df.length).filter (fun i => (rowAt df i).name == nm) :=
    List.mem_filter.mpr ⟨List.mem_range.mpr hk, by simp [hnm]⟩
  rw [hfil] at hkmem
  simpa using hkmem

theorem get_recipe_indices_mem {df : List Recipe} {prev : List String} {pv : List Nat}
    (h : get_recipe_indices df prev = some pv) {nm : String} (hnm : nm ∈ prev) :
    ∃ j ∈ pv, recipeIndex df nm = some j := by
  induction prev generalizing pv with
  | nil => cases hnm
  | cons a rest ih =>
    unfold get_recipe_indices at h
    split at h
    · next i is hi his =>
      cases h
      rcases List.mem_cons.mp hnm with rfl | hmem
      · exact ⟨i, List.mem_cons_self .., hi⟩
      · obtain ⟨j, hj, hj2⟩ := ih his hmem
        exact ⟨j, List.mem_cons_of_mem _ hj, hj2⟩
    · cases h

/-!
## Concrete catalogs used as witnesses and counterexamples

`exDf` is the example of spec §8: recipe A (chicken, italian, rice, dinner,
2–4 servings) and recipe B (tofu, thai, rice, dinner, 2–6 servings).
-/

def exDf : List Recipe :=
  [⟨"A", some "marinate overnight", 2, 4, ["dinner"], ["chicken"], ["italian"], [], ["rice"]⟩,
   ⟨"B", none, 2, 6, ["dinner"], ["tofu"], ["thai"], [], ["rice"]⟩]

/-- A catalog whose row 1 ("B") shares A's Protein and Cuisine but differs in
Form and Starch: dissimilar from `["A"]` in some dimension, yet not in
Protein. -/
def dfC1 : List Recipe :=
  [⟨"A", none, 2, 4, ["dinner"], ["chicken"], ["italian"], [], ["rice"]⟩,
   ⟨"B", none, 2, 4, ["dinner"], ["chicken"], ["italian"], ["soup"], ["pasta"]⟩]

/-- A catalog whose Protein vocabulary is `{beef, other}`, with `beef` used by
the previous recipe "A". -/
def dfC8 : List Recipe :=
  [⟨"A", none, 1, 1, [], ["beef"], [], [], []⟩,
   ⟨"B", none, 1, 1, [], ["other"], [], [], []⟩]

def catsC8 : Dim → List String
  | .Protein => ["beef", "other"]
  | _ => []

/-- The draws where every probabilistic clause is skipped. -/
def rngQuiet : Rng := ⟨false, false, false, 0, 0, 0, 0⟩

/-- A catalog whose only Protein label is the reserved `"none"`, so the
eligible Protein pool is empty even with no previous recipes. -/
def dfC9 : List Recipe :=
  [⟨"A", none, 1, 1, [], ["none"], ["french"], [], []⟩]

def catsC9 : Dim → List String
  | .Protein => ["none"]
  | .Cuisine => ["french"]
  | _ => []

/-!
## Claim theorems
-/

/-- C6: for every recipe, dimension and previous selection, a recipe carrying
no labels in the dimension is dissimilar in it (`filter_col` holds), so
untagged recipes are never excluded from a tier by tag overlap there. -/
theorem untagged_recipe_is_dissimilar (df : List Recipe) (col : Dim)
    (prev_inds : List Nat) (i : Nat) (h : (rowAt df i).tags col = []) :
    filter_col df col prev_inds i = true := by
  simp [filter_col, h]

theorem untagged_recipe_is_dissimilar_witness :
    (rowAt exDf 1).tags .Form = [] ∧ filter_col exDf .Form [0] 1 = true :=
  ⟨rfl, untagged_recipe_is_dissimilar exDf .Form [0] 1 rfl⟩

/-- C7: when the recommendation sequence is empty or the index is at least its
length, `select_recommendation` returns the "no more recipes" sentinel (and in
particular does not fail: the result is `some`). -/
theorem select_out_of_range_is_sentinel (df : List Recipe)
    (recs : List Recommendation) (i : Int)
    (h : recs = [] ∨ (recs.length : Int) ≤ i) :
    select_recommendation df recs i = some "No more recipes to recommend!" := by
  rcases h with rfl | h
  · rfl
  · unfold select_recommendation
    rw [if_pos (Or.inr h)]

theorem select_out_of_range_is_sentinel_witness :
    select_recommendation exDf [⟨1, "B", 3⟩] 1 = some "No more recipes to recommend!" :=
  select_out_of_range_is_sentinel exDf [⟨1, "B", 3⟩] 1 (Or.inr (by decide))

/-- C5: `get_recipe_recommendations` is deterministic — two invocations with
identical catalog, previous selection, meals, servings and seed return
identical sequences (the seeded shuffle is a pure function of its inputs). -/
theorem rank_deterministic (df : List Recipe) (prev meals : List String)
    (servings : Option Int) (seed : Nat) (out₁ out₂ : List Recommendation)
    (h1 : get_recipe_recommendations df prev meals servings seed = some out₁)
    (h2 : get_recipe_recommendations df prev meals servings seed = some out₂) :
    out₁ = out₂ := by
  rw [h1] at h2
  exact Option.some.inj h2

theorem rank_deterministic_witness :
    [(⟨1, "B", 3⟩ : Recommendation)] = [(⟨1, "B", 3⟩ : Recommendation)] :=
  rank_deterministic exDf ["A"] ["dinner"] (some 3) 1 _ _ (by decide) (by decide)

theorem rank_eq_rankTiers {df : List Recipe} {prev meals : List String}
    {servings : Option Int} {seed : Nat} {pv : List Nat} {out : List Recommendation}
    (hpv : get_recipe_indices df prev = some pv)
    (hout : get_recipe_recommendations df prev meals servings seed = some out) :
    out = rankTiers df pv seed [4, 3, 2, 1] (eligibleList df pv meals servings) := by
  unfold get_recipe_recommendations at hout
  rw [hpv] at hout
  exact (Option.some.inj hout).symm

theorem eligibleList_nodup (df : List Recipe) (pv : List Nat) (meals : List String)
    (servings : Option Int) : (eligibleList df pv meals servings).Nodup :=
  (List.nodup_range _).filter _

/-- C1 counterexample: in catalog `dfC1` with previous selection `["A"]`, row 1
("B") is eligible (not previous, dinner, 2–4 servings) and dissimilar from the
previous selection in the Form dimension — at least one of the four priority
dimensions — yet `get_recipe_recommendations` returns the empty sequence, so
the output is not "exactly the eligible recipes dissimilar in at least one of
the four dimensions". -/
theorem rank_omits_recipe_dissimilar_only_in_later_dims :
    get_recipe_recommendations dfC1 ["A"] ["dinner"] (some 3) 0 = some [] ∧
    get_recipe_indices dfC1 ["A"] = some [0] ∧
    1 ∈ eligibleList dfC1 [0] ["dinner"] (some 3) ∧
    filter_col dfC1 .Form [0] 1 = true := by
  refine ⟨by decide, by decide, by decide, by decide⟩

/-- C1 (amended): the sequence returned by `get_recipe_recommendations`
contains exactly the eligible recipes (not previously selected, meal-matching,
serving-matching) that are dissimilar from the previous selection in the first
priority dimension, Protein (equivalently: that qualify for at least the
rating-1 tier), and no recipe appears twice. -/
theorem rank_members_exactly_protein_dissimilar (df : List Recipe)
    (prev meals : List String) (servings : Option Int) (seed : Nat)
    (pv : List Nat) (out : List Recommendation)
    (hpv : get_recipe_indices df prev = some pv)
    (hout : get_recipe_recommendations df prev meals servings seed = some out) :
    (∀ i : Nat, (∃ x ∈ out, x.index = i) ↔
      i ∈ eligibleList df pv meals servings ∧ filter_col df .Protein pv i = true) ∧
    (out.map Recommendation.index).Nodup := by
  rw [rank_eq_rankTiers hpv hout]
  refine ⟨fun i => ⟨?_, ?_⟩, nodup_rankTiers df pv seed _ (eligibleList_nodup df pv meals servings)⟩
  · rintro ⟨x, hx, rfl⟩
    obtain ⟨h1, h2, -⟩ := (mem_rankTiers_iff df pv seed _ x).mp hx
    exact ⟨h1, h2⟩
  · rintro ⟨h1, h2⟩
    exact ⟨⟨i, (rowAt df i).name, leadingDissimilarCount df pv i⟩,
      (mem_rankTiers_iff df pv seed _ _).mpr ⟨h1, h2, rfl⟩, rfl⟩

theorem rank_members_exactly_protein_dissimilar_witness :
    ((∀ i : Nat, (∃ x ∈ [(⟨1, "B", 3⟩ : Recommendation)], x.index = i) ↔
      i ∈ eligibleList exDf [0] ["dinner"] (some 3) ∧
        filter_col exDf .Protein [0] i = true) ∧
    (([(⟨1, "B", 3⟩ : Recommendation)].map Recommendation.index).Nodup) : Prop) :=
  rank_members_exactly_protein_dissimilar exDf ["A"] ["dinner"] (some 3) 1 [0]
    [⟨1, "B", 3⟩] (by decide) (by decide)

/-- C2: every recipe in the output of `get_recipe_recommendations` carries a
rating in {1, 2, 3, 4} equal to the count of leading priority dimensions
(Protein, Cuisine, Form, Starch, in that order) in which it is simultaneously
dissimilar from the previous selection, and all occurrences of an output
recipe carry that single rating — the highest tier it qualifies for. -/
theorem rank_rating_is_leading_dissimilar_count (df : List Recipe)
    (prev meals : List String) (servings : Option Int) (seed : Nat)
    (pv : List Nat) (out : List Recommendation) (x : Recommendation)
    (hpv : get_recipe_indices df prev = some pv)
    (hout : get_recipe_recommendations df prev meals servings seed = some out)
    (hx : x ∈ out) :
    1 ≤ x.rating ∧ x.rating ≤ 4 ∧
      x.rating = leadingDissimilarCount df pv x.index ∧
      ∀ y ∈ out, y.index = x.index → y.rating = x.rating := by
  rw [rank_eq_rankTiers hpv hout] at hx ⊢
  obtain ⟨-, hP, hxeq⟩ := (mem_rankTiers_iff df pv seed _ x).mp hx
  have hrat : x.rating = leadingDissimilarCount df pv x.index := by
    conv_lhs => rw [hxeq]
  have hbounds : 1 ≤ leadingDissimilarCount df pv x.index ∧
      leadingDissimilarCount df pv x.index ≤ 4 := by
    rw [leadingDissimilarCount_eq, hP]
    cases filter_col df .Cuisine pv x.index <;>
      cases filter_col df .Form pv x.index <;>
        cases filter_col df .Starch pv x.index <;> simp
  refine ⟨hrat ▸ hbounds.1, hrat ▸ hbounds.2, hrat, ?_⟩
  intro y hy hyx
  obtain ⟨-, -, hyeq⟩ := (mem_rankTiers_iff df pv seed _ y).mp hy
  have : y.rating = leadingDissimilarCount df pv y.index := by
    conv_lhs => rw [hyeq]
  rw [this, hyx, hrat]

theorem rank_rating_is_leading_dissimilar_count_witness :
    (1 ≤ 3 ∧ 3 ≤ 4 ∧
      3 = leadingDissimilarCount exDf [0] 1 ∧
      ∀ y ∈ [(⟨1, "B", 3⟩ : Recommendation)], y.index = 1 → y.rating = 3 : Prop) := by
  have h := rank_rating_is_leading_dissimilar_count exDf ["A"] ["dinner"] (some 3) 1 [0]
    [⟨1, "B", 3⟩] ⟨1, "B", 3⟩ (by decide) (by decide) (by decide)
  exact h

/-- C3: no recipe belonging to the previous selection appears in the output of
`get_recipe_recommendations`: every output row's index is outside the resolved
previous indices and its name is not among the previous recipe names. -/
theorem rank_excludes_previous_selection (df : List Recipe)
    (prev meals : List String) (servings : Option Int) (seed : Nat)
    (pv : List Nat) (out : List Recommendation) (x : Recommendation)
    (hpv : get_recipe_indices df prev = some pv)
    (hout : get_recipe_recommendations df prev meals servings seed = some out)
    (hx : x ∈ out) :
    x.index ∉ pv ∧ x.name ∉ prev := by
  rw [rank_eq_rankTiers hpv hout] at hx
  obtain ⟨hE, -, hxeq⟩ := (mem_rankTiers_iff df pv seed _ x).mp hx
  obtain ⟨hrange, hcond⟩ := List.mem_filter.mp hE
  simp only [Bool.and_eq_true, Bool.not_eq_true'] at hcond
  have hnotpv : x.index ∉ pv := by
    intro hmem
    have : pv.contains x.index = true := List.elem_iff.mpr hmem
    rw [this] at hcond
    exact Bool.noConfusion hcond.1.1
  refine ⟨hnotpv, fun hname => ?_⟩
  obtain ⟨j, hj, hjix⟩ := get_recipe_indices_mem hpv hname
  have hxname : (rowAt df x.index).name = x.name := by
    conv_rhs => rw [hxeq]
  have := recipeIndex_unique hjix (List.mem_range.mp hrange) hxname
  exact hnotpv (this ▸ hj)

theorem rank_excludes_previous_selection_witness :
    ((⟨1, "B", 3⟩ : Recommendation).index ∉ [0] ∧
      (⟨1, "B", 3⟩ : Recommendation).name ∉ ["A"]) :=
  rank_excludes_previous_selection exDf ["A"] ["dinner"] (some 3) 1 [0]
    [⟨1, "B", 3⟩] ⟨1, "B", 3⟩ (by decide) (by decide) (by decide)

/-- C4: every recipe in the output of `get_recipe_recommendations` has a Meal
tag among the requested meals, and when a servings value is supplied its
serving range contains it; with no servings value the check is skipped (no
constraint on the serving bounds). -/
theorem rank_respects_meals_and_servings (df : List Recipe)
    (prev meals : List String) (servings : Option Int) (seed : Nat)
    (pv : List Nat) (out : List Recommendation) (x : Recommendation)
    (hpv : get_recipe_indices df prev = some pv)
    (hout : get_recipe_recommendations df prev meals servings seed = some out)
    (hx : x ∈ out) :
    (∃ m ∈ meals, m ∈ (rowAt df x.index).tags .Meal) ∧
      ∀ s : Int, servings = some s →
        (rowAt df x.index).minServings ≤ s ∧ s ≤ (rowAt df x.index).maxServings := by
  rw [rank_eq_rankTiers hpv hout] at hx
  obtain ⟨hE, -, -⟩ := (mem_rankTiers_iff df pv seed _ x).mp hx
  obtain ⟨-, hcond⟩ := List.mem_filter.mp hE
  simp only [Bool.and_eq_true] at hcond
  obtain ⟨⟨-, hmeal⟩, hserv⟩ := hcond
  constructor
  · unfold select_meals at hmeal
    rw [List.any_eq_true] at hmeal
    obtain ⟨m, hm, hmem⟩ := hmeal
    exact ⟨m, hm, List.elem_iff.mp hmem⟩
  · rintro s rfl
    unfold select_servings at hserv
    simp only [Bool.and_eq_true, decide_eq_true_eq] at hserv
    exact hserv

theorem rank_respects_meals_and_servings_witness :
    ((∃ m ∈ ["dinner"], m ∈ (rowAt exDf (⟨1, "B", 3⟩ : Recommendation).index).tags .Meal) ∧
      ∀ s : Int, (some 3 : Option Int) = some s →
        (rowAt exDf (⟨1, "B", 3⟩ : Recommendation).index).minServings ≤ s ∧
          s ≤ (rowAt exDf (⟨1, "B", 3⟩ : Recommendation).index).maxServings) :=
  rank_respects_meals_and_servings exDf ["A"] ["dinner"] (some 3) 1 [0]
    [⟨1, "B", 3⟩] ⟨1, "B", 3⟩ (by decide) (by decide) (by decide)

theorem formatMarkdown_ne_sentinel (a b c : String) :
    formatMarkdown a b c ≠ "No more recipes to recommend!" := by
  intro h
  have hd := congrArg (fun s => s.data.head?) h
  simp only [formatMarkdown, String.data_append] at hd
  simp at hd

/-- C10: on a non-empty recommendation sequence of length `n`, an index `i`
with `-n ≤ i ≤ -1` is below the `i >= len(recommendations)` guard, so
`select_recommendation` does not return the sentinel: `.iloc[i]` resolves the
negative index Python-style and the formatted record of the recommendation at
position `n + i` is returned. -/
theorem select_negative_index_formats (df : List Recipe)
    (recs : List Recommendation) (i : Int) (h0 : recs ≠ [])
    (h1 : -(recs.length : Int) ≤ i) (h2 : i ≤ -1) :
    select_recommendation df recs i =
      some (formatMarkdown (recs.getD ((recs.length : Int) + i).toNat default).name
        (String.mk (List.replicate
          (recs.getD ((recs.length : Int) + i).toNat default).rating '*'))
        (((rowAt df (recs.getD ((recs.length : Int) + i).toNat default).index).notes).getD "")) ∧
    select_recommendation df recs i ≠ some "No more recipes to recommend!" := by
  have hlen : 0 < recs.length := List.length_pos.mpr h0
  have hcond : ¬(recs.length = 0 ∨ (recs.length : Int) ≤ i) := by
    push_neg
    omega
  have hneg : i < 0 := by omega
  have h3 : (0 : Int) ≤ (recs.length : Int) + i := by omega
  have heq : select_recommendation df recs i =
      some (formatMarkdown (recs.getD ((recs.length : Int) + i).toNat default).name
        (String.mk (List.replicate
          (recs.getD ((recs.length : Int) + i).toNat default).rating '*'))
        (((rowAt df (recs.getD ((recs.length : Int) + i).toNat default).index).notes).getD "")) := by
    unfold select_recommendation
    rw [if_neg hcond]
    simp only [if_pos hneg]
    rw [if_pos h3]
  refine ⟨heq, ?_⟩
  rw [heq]
  intro hc
  exact formatMarkdown_ne_sentinel _ _ _ (Option.some.inj hc)

theorem select_negative_index_formats_witness :
    select_recommendation exDf [(⟨1, "B", 3⟩ : Recommendation)] (-1) =
      some (formatMarkdown "B" "***" "") ∧
    select_recommendation exDf [(⟨1, "B", 3⟩ : Recommendation)] (-1) ≠
      some "No more recipes to recommend!" := by
  have h := select_negative_index_formats exDf [⟨1, "B", 3⟩] (-1)
    (by decide) (by decide) (by decide)
  exact ⟨h.1.trans (by decide), h.2⟩

/-- C8: the reserved labels are not always excluded from the eligible pool. In
catalog `dfC8` with previous selection `["A"]`, the eligible Protein pool is
`["other"]`: `list.remove('none')` raises `ValueError` because `"none"` is
absent, which aborts the `try` block before `remove('other')` runs, so
`"other"` survives and the inspiration text can be exactly the reserved label
`"other"`. -/
theorem inspire_can_emit_reserved_other :
    get_new_category_pool dfC8 catsC8 [0] .Protein = ["other"] ∧
    get_recipe_indices dfC8 ["A"] = some [0] ∧
    get_recipe_inspiration dfC8 catsC8 ["A"] rngQuiet = some "other" := by
  refine ⟨by decide, by decide, by decide⟩

/-- C9: when the eligible Protein pool is empty, `get_recipe_inspiration`
still returns a text (no uncontrolled failure): the Protein clause together
with its conditional `"with "` separator contributes the empty string
(`merge_strings` of a `None` clause), and the result is the remaining clauses
only. -/
theorem inspire_total_with_empty_protein_pool (df : List Recipe)
    (categories : Dim → List String) (prev : List String) (rng : Rng)
    (pv : List Nat)
    (hpv : get_recipe_indices df prev = some pv)
    (hempty : get_new_category_pool df categories pv .Protein = []) :
    proteinClause df categories pv rng
        (cuisineClause df categories pv rng ++ formClause df categories pv rng) = "" ∧
    get_recipe_inspiration df categories prev rng =
      some ((cuisineClause df categories pv rng ++ formClause df categories pv rng) ++
        starchClause df categories pv rng
          (cuisineClause df categories pv rng ++ formClause df categories pv rng)) := by
  have hnone : get_new_category df categories pv .Protein rng.pickProtein = none := by
    unfold get_new_category
    rw [hempty]
    rfl
  have hpc : ∀ base, proteinClause df categories pv rng base = "" := by
    intro base
    unfold proteinClause
    rw [hnone]
    rfl
  refine ⟨hpc _, ?_⟩
  unfold get_recipe_inspiration
  rw [hpv]
  simp only [hpc, String.append_empty]

def rngC9 : Rng := ⟨true, false, true, 0, 0, 0, 0⟩

theorem inspire_total_with_empty_protein_pool_witness :
    proteinClause dfC9 catsC9 [] rngC9
        (cuisineClause dfC9 catsC9 [] rngC9 ++ formClause dfC9 catsC9 [] rngC9) = "" ∧
    get_recipe_inspiration dfC9 catsC9 [] rngC9 =
      some ((cuisineClause dfC9 catsC9 [] rngC9 ++ formClause dfC9 catsC9 [] rngC9) ++
        starchClause dfC9 catsC9 [] rngC9
          (cuisineClause dfC9 catsC9 [] rngC9 ++ formClause dfC9 catsC9 [] rngC9)) :=
  inspire_total_with_empty_protein_pool dfC9 catsC9 [] rngC9 []
    (by decide) (by decide)

end Appetizer
